import Mathlib

/-!
Shallow embedding of the todo-list frontend (src/todo_frontend/src/App.js).

The program is a React single-page client: four HTTP wrapper functions
(fetchTasks, createTask, updateTask, deleteTask) and one view component
holding the task collection and transient UI state.  We model:

* a `Task` record (`id`, `title`, `completed`) — ids are modelled as `Nat`;
* the component state `AppState` mirroring the `useState` slots
  (`tasks`, `newTitle`, `loading`, `busyId`, `error`, `filter`,
  `editingId`, `editingTitle`);
* each API wrapper as a pure function from the HTTP response it would
  receive to `Except String β` — `Except.error` models a thrown `Error`
  whose `message` is the carried string, exactly as built in the source;
* each event handler as a pure state transformer, parameterised by the
  outcome of the one `await`ed request it performs.  Handlers that may
  return without issuing a request (`handleAdd`, `saveEdit`) additionally
  return a `Bool` that is `true` iff the network request was issued.

JavaScript `String.prototype.trim` is modelled by `jsTrim` (drop leading
and trailing whitespace characters), and `err.message || fallback` by
`orDefault` (JS `||` takes the fallback exactly on the empty string).
-/

namespace TodoApp

/-- A task record as delivered by the backend:
`{ id, title, completed }` (App.js header comment and JSX usage). -/
structure Task where
  id : Nat
  title : String
  completed : Bool
deriving DecidableEq, Repr

/-- The filter mode: `'all' | 'active' | 'completed'` (App.js line 68). -/
inductive Filter where
  | all
  | active
  | completed
deriving DecidableEq, Repr

/-- The component state: one field per `useState` slot of `App`
(App.js lines 63–70; the constant `theme` slot is omitted). -/
structure AppState where
  tasks : List Task
  newTitle : String
  loading : Bool
  busyId : Option Nat
  error : Option String
  filter : Filter
  editingId : Option Nat
  editingTitle : String
deriving DecidableEq, Repr

/-- Drop leading and trailing whitespace from a character list —
the semantics of JavaScript `String.prototype.trim`. -/
def trimChars (cs : List Char) : List Char :=
  ((cs.dropWhile Char.isWhitespace).reverse.dropWhile Char.isWhitespace).reverse

/-- JavaScript `s.trim()`. -/
def jsTrim (s : String) : String :=
  String.mk (trimChars s.data)

/-- JavaScript `m || fallback` for strings: the empty string is falsy. -/
def orDefault (m fallback : String) : String :=
  if m = "" then fallback else m

/-- An HTTP response as the wrappers see it: a status code and the
JSON-decoded body (`res.json()`), abstracted over the body type. -/
structure HttpResponse (α : Type) where
  status : Nat
  body : α

/-- JavaScript `Response.ok`: status in the inclusive range 200–299. -/
def httpOk (n : Nat) : Prop :=
  200 ≤ n ∧ n ≤ 299

instance (n : Nat) : Decidable (httpOk n) :=
  inferInstanceAs (Decidable (200 ≤ n ∧ n ≤ 299))

/-- `fetchTasks` (App.js lines 15–20): GET `/tasks`; on `res.ok` return the
parsed body, otherwise throw "Failed to fetch tasks: <status>". -/
def fetchTasks (res : HttpResponse (List Task)) : Except String (List Task) :=
  if httpOk res.status then Except.ok res.body
  else Except.error ("Failed to fetch tasks: " ++ toString res.status)

/-- `createTask` (App.js lines 23–32): POST `/tasks`; on `res.ok` return the
created task, otherwise throw "Failed to create task: <status>". -/
def createTask (res : HttpResponse Task) : Except String Task :=
  if httpOk res.status then Except.ok res.body
  else Except.error ("Failed to create task: " ++ toString res.status)

/-- `updateTask` (App.js lines 35–44): PUT `/tasks/:id`; on `res.ok` return
the updated task, otherwise throw "Failed to update task: <status>". -/
def updateTask (res : HttpResponse Task) : Except String Task :=
  if httpOk res.status then Except.ok res.body
  else Except.error ("Failed to update task: " ++ toString res.status)

/-- `deleteTask` (App.js lines 47–54): DELETE `/tasks/:id`; on `res.ok`
return `true` (body ignored), otherwise throw
"Failed to delete task: <status>". -/
def deleteTask (res : HttpResponse Unit) : Except String Bool :=
  if httpOk res.status then Except.ok true
  else Except.error ("Failed to delete task: " ++ toString res.status)

/-- `visibleTasks` (App.js lines 87–91): the filtered view of the
collection. -/
def visibleTasks (tasks : List Task) (filter : Filter) : List Task :=
  if filter = Filter.active then tasks.filter (fun t => !t.completed)
  else if filter = Filter.completed then tasks.filter (fun t => t.completed)
  else tasks

/-- `handleAdd` (App.js lines 93–108), as a function of the outcome of
`createTask`.  Returns the new state and whether a request was issued.
If the trimmed title is falsy the handler returns immediately; otherwise
it clears `error`, sets `loading`, and on success prepends the created
task and clears the input buffer, on failure records the error message;
`loading` is always cleared in `finally`. -/
def handleAdd (s : AppState) (result : Except String Task) : AppState × Bool :=
  if jsTrim s.newTitle = "" then (s, false)
  else
    match result with
    | Except.ok created =>
        ({ s with loading := false, error := none,
                  tasks := created :: s.tasks, newTitle := "" }, true)
    | Except.error msg =>
        ({ s with loading := false,
                  error := some (orDefault msg "Failed to add task") }, true)

/-- `handleToggle` (App.js lines 110–121), as a function of the outcome of
`updateTask (task.id, completed: not task.completed)`.  Sets `busyId`,
clears `error`; on success replaces every task whose id equals `task.id`
with the server record `updated`; on failure records the error message;
`busyId` is always cleared in `finally`. -/
def handleToggle (s : AppState) (task : Task) (result : Except String Task) :
    AppState :=
  match result with
  | Except.ok updated =>
      { s with busyId := none, error := none,
               tasks := s.tasks.map (fun t => if t.id = task.id then updated else t) }
  | Except.error msg =>
      { s with busyId := none,
               error := some (orDefault msg "Failed to toggle task") }

/-- `handleDelete` (App.js lines 123–134), as a function of the outcome of
`deleteTask task.id`.  Sets `busyId`, clears `error`; on success keeps
exactly the tasks whose id differs from `task.id`; on failure records the
error message; `busyId` is always cleared in `finally`. -/
def handleDelete (s : AppState) (task : Task) (result : Except String Bool) :
    AppState :=
  match result with
  | Except.ok _ =>
      { s with busyId := none, error := none,
               tasks := s.tasks.filter (fun t => t.id != task.id) }
  | Except.error msg =>
      { s with busyId := none,
               error := some (orDefault msg "Failed to delete task") }

/-- `startEdit` (App.js lines 136–139). -/
def startEdit (s : AppState) (task : Task) : AppState :=
  { s with editingId := some task.id, editingTitle := task.title }

/-- `cancelEdit` (App.js lines 141–144). -/
def cancelEdit (s : AppState) : AppState :=
  { s with editingId := none, editingTitle := "" }

/-- `saveEdit` (App.js lines 146–163), as a function of the outcome of
`updateTask (task.id, title: trimmed)`.  If the trimmed draft is falsy or
equals the task's current title it behaves as `cancelEdit` with no
request; otherwise it sets `busyId`, clears `error`, and on success
replaces the task and exits edit mode, on failure records the error
message and stays in edit mode; `busyId` is always cleared in `finally`.
Returns the new state together with the request actually issued: `none`
when the handler returned before calling the API, and
`some (task.id, trimmed draft)` — the id and `{title}` body of the one
`updateTask` call the source makes — when a request was issued. -/
def saveEdit (s : AppState) (task : Task) (result : Except String Task) :
    AppState × Option (Nat × String) :=
  if jsTrim s.editingTitle = "" ∨ jsTrim s.editingTitle = task.title then
    (cancelEdit s, none)
  else
    match result with
    | Except.ok updated =>
        ({ s with busyId := none, error := none,
                  tasks := s.tasks.map (fun t => if t.id = task.id then updated else t),
                  editingId := none, editingTitle := "" },
         some (task.id, jsTrim s.editingTitle))
    | Except.error msg =>
        ({ s with busyId := none,
                  error := some (orDefault msg "Failed to update task") },
         some (task.id, jsTrim s.editingTitle))

/-- A sample task used by concrete witnesses. -/
def demoTask : Task := ⟨1, "A", false⟩

/-- A second sample task with a distinct id. -/
def demoTask2 : Task := ⟨2, "B", true⟩

/-- A sample state: one task, a non-blank input buffer, a non-blank edit
draft that differs from the task's title. -/
def demoState : AppState :=
  ⟨[demoTask], "Buy milk", false, none, none, Filter.all, none, "B"⟩

/-- A state whose collection holds two distinct tasks with the same id. -/
def dupState : AppState :=
  ⟨[⟨1, "A", false⟩, ⟨1, "B", false⟩], "", false, none, none, Filter.all, none, ""⟩

/-- A state whose collection holds two tasks with distinct ids. -/
def uniqState : AppState :=
  ⟨[demoTask, demoTask2], "", false, none, none, Filter.all, none, ""⟩

/-- A state whose input buffer is whitespace-only. -/
def blankState : AppState :=
  ⟨[demoTask], "   ", false, none, none, Filter.all, none, ""⟩

/-- A state in edit mode whose draft carries surrounding whitespace, to
observe that the issued request carries the trimmed draft. -/
def padState : AppState :=
  ⟨[demoTask], "", false, none, none, Filter.all, some 1, "  B  "⟩

/-! ## Helper lemmas -/

theorem orDefault_ne_empty (m fallback : String) (h : fallback ≠ "") :
    orDefault m fallback ≠ "" := by
  unfold orDefault
  split
  · exact h
  · assumption

theorem dropWhile_eq_nil_of_all (p : Char → Bool) :
    ∀ cs : List Char, (∀ c ∈ cs, p c = true) → cs.dropWhile p = [] := by
  intro cs h
  induction cs with
  | nil => rfl
  | cons c cs ih =>
      have hc : p c = true := h c (List.mem_cons_self c cs)
      rw [List.dropWhile_cons, if_pos hc]
      exact ih (fun x hx => h x (List.mem_cons_of_mem c hx))

theorem trimChars_eq_nil (cs : List Char)
    (h : ∀ c ∈ cs, c.isWhitespace = true) : trimChars cs = [] := by
  unfold trimChars
  rw [dropWhile_eq_nil_of_all _ cs h]
  rfl

theorem jsTrim_blank (s : String)
    (h : ∀ c ∈ s.data, c.isWhitespace = true) : jsTrim s = "" := by
  unfold jsTrim
  rw [trimChars_eq_nil s.data h]

theorem filter_ne_length (x : Nat) :
    ∀ l : List Task,
      (l.filter (fun t => t.id != x)).length + l.countP (fun t => t.id == x)
        = l.length := by
  intro l
  induction l with
  | nil => rfl
  | cons t l ih =>
      by_cases hx : t.id = x <;>
        simp [List.filter_cons, List.countP_cons, hx] <;> omega

/-! ## Claim theorems -/

/-- C2: the visible list is a pure function of the collection and the
filter mode: `active` yields exactly the elements with `completed = false`,
`completed` yields exactly the elements with `completed = true`, `all`
yields the collection itself, and the visible list for every mode is a
sublist of the collection, which itself is left unchanged (the model is a
pure function, so the input list cannot be mutated). -/
theorem visibleTasks_pure (ts : List Task) (m : Filter) :
    (∀ t, t ∈ visibleTasks ts Filter.active ↔ t ∈ ts ∧ t.completed = false) ∧
    (∀ t, t ∈ visibleTasks ts Filter.completed ↔ t ∈ ts ∧ t.completed = true) ∧
    visibleTasks ts Filter.all = ts ∧
    (visibleTasks ts m).Sublist ts := by
  refine ⟨?_, ?_, ?_, ?_⟩
  · intro t
    simp [visibleTasks, List.mem_filter]
  · intro t
    simp [visibleTasks, List.mem_filter]
  · rfl
  · cases m with
    | all => exact List.Sublist.refl ts
    | active => exact List.filter_sublist ts
    | completed => exact List.filter_sublist ts

/-- C2 witness: the characterisation evaluated at a concrete collection. -/
theorem visibleTasks_pure_witness :
    (demoTask ∈ visibleTasks uniqState.tasks Filter.active
      ↔ demoTask ∈ uniqState.tasks ∧ demoTask.completed = false) :=
  (visibleTasks_pure uniqState.tasks Filter.active).1 demoTask

/-- C10: `handleToggle` and `handleDelete` leave the filter mode, the input
buffer `newTitle`, the inline-edit state (`editingId`, `editingTitle`) and
`loading` unchanged on both the success and the failure path; only
`tasks`, `busyId` and `error` may change. -/
theorem toggle_delete_frame (s : AppState) (task : Task)
    (rT : Except String Task) (rD : Except String Bool) :
    (handleToggle s task rT).filter = s.filter ∧
    (handleToggle s task rT).newTitle = s.newTitle ∧
    (handleToggle s task rT).editingId = s.editingId ∧
    (handleToggle s task rT).editingTitle = s.editingTitle ∧
    (handleToggle s task rT).loading = s.loading ∧
    (handleDelete s task rD).filter = s.filter ∧
    (handleDelete s task rD).newTitle = s.newTitle ∧
    (handleDelete s task rD).editingId = s.editingId ∧
    (handleDelete s task rD).editingTitle = s.editingTitle ∧
    (handleDelete s task rD).loading = s.loading := by
  cases rT <;> cases rD <;> simp [handleToggle, handleDelete]

/-- C1: after a successful toggle of `task`, the collection holds exactly
the server-returned record `updated` at `task`'s id — whatever `completed`
value the server returned, not the client-side negation: every element
whose id equals `task.id` is `updated`, `updated` itself is present,
elements with other ids are untouched, and no element is added or lost. -/
theorem toggle_success_reflects_server (s : AppState) (task updated : Task)
    (h : task ∈ s.tasks) :
    updated ∈ (handleToggle s task (Except.ok updated)).tasks ∧
    (∀ t ∈ (handleToggle s task (Except.ok updated)).tasks,
        t.id = task.id → t = updated) ∧
    (∀ t ∈ s.tasks, t.id ≠ task.id →
        t ∈ (handleToggle s task (Except.ok updated)).tasks) ∧
    (handleToggle s task (Except.ok updated)).tasks.length = s.tasks.length := by
  refine ⟨?_, ?_, ?_, ?_⟩
  · simp only [handleToggle]
    exact List.mem_map.mpr ⟨task, h, by simp⟩
  · simp only [handleToggle]
    intro t ht hid
    obtain ⟨a, ha, rfl⟩ := List.mem_map.mp ht
    by_cases hax : a.id = task.id
    · rw [if_pos hax]
    · rw [if_neg hax] at hid ⊢
      exact absurd hid hax
  · intro t ht hne
    simp only [handleToggle]
    exact List.mem_map.mpr ⟨t, ht, if_neg hne⟩
  · simp [handleToggle]

/-- C1 witness: the server echoes back `completed = false` for a task whose
pre-toggle value was already `false` (the client-side negation would be
`true`); the stored record is the server's, not the negation. -/
theorem toggle_success_reflects_server_witness :
    demoTask ∈ demoState.tasks ∧
    demoTask ∈ (handleToggle demoState demoTask (Except.ok demoTask)).tasks :=
  ⟨by decide,
   (toggle_success_reflects_server demoState demoTask demoTask (by decide)).1⟩

/-- C3 counterexample: with a collection holding two records that share
id 1, a successful delete of id 1 removes both of them — two elements, not
exactly one — so the claim fails as stated for arbitrary collections. -/
theorem handleDelete_counterexample :
    dupState.tasks.length = 2 ∧
    (∀ t ∈ dupState.tasks, t.id = 1) ∧
    (handleDelete dupState ⟨1, "A", false⟩ (Except.ok true)).tasks = [] := by
  decide

/-- C3 amended: a successful delete of `task.id` keeps exactly the
elements whose id differs from `task.id` — it removes every element with
that id and no element with another id; when the collection holds exactly
one element with id `task.id` (the unique-id invariant of the data model),
exactly one element is removed. -/
theorem handleDelete_removes_matching (s : AppState) (task : Task)
    (h : s.tasks.countP (fun t => t.id == task.id) = 1) :
    ((handleDelete s task (Except.ok true)).tasks
       = s.tasks.filter (fun t => t.id != task.id)) ∧
    (∀ t ∈ (handleDelete s task (Except.ok true)).tasks, t.id ≠ task.id) ∧
    ((handleDelete s task (Except.ok true)).tasks.countP (fun t => t.id != task.id)
       = s.tasks.countP (fun t => t.id != task.id)) ∧
    (handleDelete s task (Except.ok true)).tasks.length + 1 = s.tasks.length := by
  refine ⟨rfl, ?_, ?_, ?_⟩
  · intro t ht
    simp only [handleDelete] at ht
    have := (List.mem_filter.mp ht).2
    simpa using this
  · simp only [handleDelete]
    have hfun : (fun t : Task => (t.id != task.id) && (t.id != task.id))
        = fun t : Task => t.id != task.id := funext fun t => Bool.and_self _
    rw [List.countP_filter, hfun]
  · have hl := filter_ne_length task.id s.tasks
    simp only [handleDelete]
    omega

/-- C3 amended witness: deleting id 1 from a two-element collection with
distinct ids 1 and 2 removes exactly one element. -/
theorem handleDelete_removes_matching_witness :
    uniqState.tasks.countP (fun t => t.id == demoTask.id) = 1 ∧
    (handleDelete uniqState demoTask (Except.ok true)).tasks.length + 1
      = uniqState.tasks.length :=
  ⟨by decide,
   (handleDelete_removes_matching uniqState demoTask (by decide)).2.2.2⟩

/-- C4: each API operation fails exactly when the response status is not
2xx; on failure the result is the thrown error whose message is the
operation-specific text followed by the status (so the failure carries
both), and the caller receives no response body (the result is never
`Except.ok`); the four operation texts are pairwise distinct. -/
theorem api_failure_contract (resL : HttpResponse (List Task))
    (resC resU : HttpResponse Task) (resD : HttpResponse Unit) :
    ((∃ e, fetchTasks resL = Except.error e) ↔ ¬ httpOk resL.status) ∧
    ((∃ e, createTask resC = Except.error e) ↔ ¬ httpOk resC.status) ∧
    ((∃ e, updateTask resU = Except.error e) ↔ ¬ httpOk resU.status) ∧
    ((∃ e, deleteTask resD = Except.error e) ↔ ¬ httpOk resD.status) ∧
    (¬ httpOk resL.status → fetchTasks resL
       = Except.error ("Failed to fetch tasks: " ++ toString resL.status)) ∧
    (¬ httpOk resC.status → createTask resC
       = Except.error ("Failed to create task: " ++ toString resC.status)) ∧
    (¬ httpOk resU.status → updateTask resU
       = Except.error ("Failed to update task: " ++ toString resU.status)) ∧
    (¬ httpOk resD.status → deleteTask resD
       = Except.error ("Failed to delete task: " ++ toString resD.status)) ∧
    (¬ httpOk resL.status → ∀ b, fetchTasks resL ≠ Except.ok b) ∧
    (¬ httpOk resC.status → ∀ b, createTask resC ≠ Except.ok b) ∧
    (¬ httpOk resU.status → ∀ b, updateTask resU ≠ Except.ok b) ∧
    (¬ httpOk resD.status → ∀ b, deleteTask resD ≠ Except.ok b) ∧
    ("Failed to fetch tasks: " ≠ "Failed to create task: " ∧
     "Failed to fetch tasks: " ≠ "Failed to update task: " ∧
     "Failed to fetch tasks: " ≠ "Failed to delete task: " ∧
     "Failed to create task: " ≠ "Failed to update task: " ∧
     "Failed to create task: " ≠ "Failed to delete task: " ∧
     "Failed to update task: " ≠ "Failed to delete task: ") := by
  refine ⟨?_, ?_, ?_, ?_, ?_, ?_, ?_, ?_, ?_, ?_, ?_, ?_, by decide⟩
  · by_cases h : httpOk resL.status <;> simp [fetchTasks, h]
  · by_cases h : httpOk resC.status <;> simp [createTask, h]
  · by_cases h : httpOk resU.status <;> simp [updateTask, h]
  · by_cases h : httpOk resD.status <;> simp [deleteTask, h]
  · intro hn; simp [fetchTasks, hn]
  · intro hn; simp [createTask, hn]
  · intro hn; simp [updateTask, hn]
  · intro hn; simp [deleteTask, hn]
  · intro hn b; simp [fetchTasks, hn]
  · intro hn b; simp [createTask, hn]
  · intro hn b; simp [updateTask, hn]
  · intro hn b; simp [deleteTask, hn]

/-- C4 witness: a 500 response to the list operation yields exactly the
thrown error with the operation text and the status. -/
theorem api_failure_contract_witness :
    fetchTasks ⟨500, []⟩
      = Except.error ("Failed to fetch tasks: " ++ toString 500) :=
  (api_failure_contract ⟨500, []⟩ ⟨500, demoTask⟩ ⟨500, demoTask⟩
    ⟨500, ()⟩).2.2.2.2.1 (by decide)

/-- C5: a failed update request leaves the task collection exactly as it
was (nothing was applied optimistically) and leaves the error state
holding a non-empty message: unconditionally for a failed toggle, in any
state; and for a failed title save whenever the draft is non-blank and
differs from the current title, i.e. exactly when the save issues a
request at all. -/
theorem update_failure_preserves (s : AppState) (task : Task) (msg : String) :
    (handleToggle s task (Except.error msg)).tasks = s.tasks ∧
    (∃ e, (handleToggle s task (Except.error msg)).error = some e ∧ e ≠ "") ∧
    (jsTrim s.editingTitle ≠ "" → jsTrim s.editingTitle ≠ task.title →
      (saveEdit s task (Except.error msg)).1.tasks = s.tasks ∧
      (∃ e, (saveEdit s task (Except.error msg)).1.error = some e ∧ e ≠ "")) := by
  refine ⟨rfl, ⟨orDefault msg "Failed to toggle task", rfl,
      orDefault_ne_empty _ _ (by decide)⟩, ?_⟩
  intro h1 h2
  have hcond : ¬ (jsTrim s.editingTitle = "" ∨ jsTrim s.editingTitle = task.title) := by
    intro hor
    cases hor with
    | inl h => exact h1 h
    | inr h => exact h2 h
  have hsave : saveEdit s task (Except.error msg)
      = ({ s with busyId := none,
                  error := some (orDefault msg "Failed to update task") },
         some (task.id, jsTrim s.editingTitle)) := by
    unfold saveEdit
    rw [if_neg hcond]
  exact ⟨by rw [hsave],
    by rw [hsave]; exact ⟨orDefault msg "Failed to update task", rfl,
      orDefault_ne_empty _ _ (by decide)⟩⟩

/-- C5 witness: a failed toggle in an ordinary state with no edit in
progress leaves the collection untouched, and a failed save in a state
whose draft "B" is non-blank and differs from title "A" does too. -/
theorem update_failure_preserves_witness :
    (handleToggle uniqState demoTask (Except.error "boom")).tasks = uniqState.tasks ∧
    (saveEdit demoState demoTask (Except.error "boom")).1.tasks = demoState.tasks :=
  ⟨(update_failure_preserves uniqState demoTask "boom").1,
   ((update_failure_preserves demoState demoTask "boom").2.2
      (by decide) (by decide)).1⟩

/-- C6: when every character of the input buffer is whitespace (which
includes the empty buffer), submitting an add issues no network request and
returns the state completely unchanged. -/
theorem handleAdd_blank_no_request (s : AppState) (r : Except String Task)
    (h : ∀ c ∈ s.newTitle.data, c.isWhitespace = true) :
    handleAdd s r = (s, false) := by
  have ht : jsTrim s.newTitle = "" := jsTrim_blank _ h
  simp [handleAdd, ht]

/-- C6 witness: a three-space input buffer triggers no request and no
state change. -/
theorem handleAdd_blank_no_request_witness :
    (∀ c ∈ blankState.newTitle.data, c.isWhitespace = true) ∧
    handleAdd blankState (Except.ok demoTask2) = (blankState, false) :=
  ⟨by decide, handleAdd_blank_no_request blankState (Except.ok demoTask2) (by decide)⟩

/-- C7: when the backend rejects a create (any non-2xx status, e.g. 500)
and the input buffer is non-blank so the request was actually issued, the
collection is unchanged, the error state holds a non-empty message, and
the input buffer still holds exactly the text the user typed. -/
theorem create_reject_preserves (s : AppState) (res : HttpResponse Task)
    (hres : ¬ httpOk res.status) (ht : jsTrim s.newTitle ≠ "") :
    (handleAdd s (createTask res)).1.tasks = s.tasks ∧
    (∃ e, (handleAdd s (createTask res)).1.error = some e ∧ e ≠ "") ∧
    (handleAdd s (createTask res)).1.newTitle = s.newTitle ∧
    (handleAdd s (createTask res)).2 = true := by
  have hc : createTask res
      = Except.error ("Failed to create task: " ++ toString res.status) := by
    simp [createTask, hres]
  have hadd : handleAdd s (createTask res)
      = ({ s with loading := false,
                  error := some (orDefault
                    ("Failed to create task: " ++ toString res.status)
                    "Failed to add task") }, true) := by
    rw [hc]
    unfold handleAdd
    rw [if_neg ht]
  refine ⟨by rw [hadd], ?_, by rw [hadd], by rw [hadd]⟩
  rw [hadd]
  exact ⟨orDefault ("Failed to create task: " ++ toString res.status)
           "Failed to add task", rfl, orDefault_ne_empty _ _ (by decide)⟩

/-- C7 witness: a 500 create rejection with input buffer "Buy milk" leaves
the buffer uncleared. -/
theorem create_reject_preserves_witness :
    ¬ httpOk 500 ∧ jsTrim demoState.newTitle ≠ "" ∧
    (handleAdd demoState (createTask ⟨500, demoTask2⟩)).1.newTitle
      = demoState.newTitle :=
  ⟨by decide, by decide,
   (create_reject_preserves demoState ⟨500, demoTask2⟩ (by decide) (by decide)).2.2.1⟩

/-- C8: if the trimmed draft is empty or equals the task's current title,
`saveEdit` behaves exactly as `cancelEdit` (which clears `editingId` and
`editingTitle`) and issues no request, whatever the would-be outcome;
otherwise the one request issued is the update call for `task.id` whose
body carries exactly the trimmed draft, and: on success every element with
the task's id is replaced by the server record, edit mode is exited and
`busyId` cleared; on failure the collection is unchanged, the error is a
non-empty message, edit mode is preserved and `busyId` cleared. -/
theorem saveEdit_spec (s : AppState) (task updated : Task) (msg : String) :
    ((jsTrim s.editingTitle = "" ∨ jsTrim s.editingTitle = task.title) →
      ∀ r, saveEdit s task r = (cancelEdit s, none)) ∧
    (jsTrim s.editingTitle ≠ "" → jsTrim s.editingTitle ≠ task.title →
      ((saveEdit s task (Except.ok updated)).2
         = some (task.id, jsTrim s.editingTitle) ∧
       (saveEdit s task (Except.ok updated)).1.tasks
         = s.tasks.map (fun t => if t.id = task.id then updated else t) ∧
       (saveEdit s task (Except.ok updated)).1.editingId = none ∧
       (saveEdit s task (Except.ok updated)).1.editingTitle = "" ∧
       (saveEdit s task (Except.ok updated)).1.busyId = none) ∧
      ((saveEdit s task (Except.error msg)).2
         = some (task.id, jsTrim s.editingTitle) ∧
       (saveEdit s task (Except.error msg)).1.tasks = s.tasks ∧
       (∃ e, (saveEdit s task (Except.error msg)).1.error = some e ∧ e ≠ "") ∧
       (saveEdit s task (Except.error msg)).1.editingId = s.editingId ∧
       (saveEdit s task (Except.error msg)).1.editingTitle = s.editingTitle ∧
       (saveEdit s task (Except.error msg)).1.busyId = none)) := by
  constructor
  · intro hc r
    unfold saveEdit
    rw [if_pos hc]
  · intro h1 h2
    have hcond : ¬ (jsTrim s.editingTitle = "" ∨ jsTrim s.editingTitle = task.title) := by
      intro hor
      cases hor with
      | inl h => exact h1 h
      | inr h => exact h2 h
    have hok : saveEdit s task (Except.ok updated)
        = ({ s with busyId := none, error := none,
                    tasks := s.tasks.map (fun t => if t.id = task.id then updated else t),
                    editingId := none, editingTitle := "" },
           some (task.id, jsTrim s.editingTitle)) := by
      unfold saveEdit
      rw [if_neg hcond]
    have herr : saveEdit s task (Except.error msg)
        = ({ s with busyId := none,
                    error := some (orDefault msg "Failed to update task") },
           some (task.id, jsTrim s.editingTitle)) := by
      unfold saveEdit
      rw [if_neg hcond]
    refine ⟨⟨by rw [hok], by rw [hok], by rw [hok], by rw [hok], by rw [hok]⟩,
            by rw [herr], by rw [herr], ?_, by rw [herr], by rw [herr], by rw [herr]⟩
    rw [herr]
    exact ⟨orDefault msg "Failed to update task", rfl,
      orDefault_ne_empty _ _ (by decide)⟩

/-- C8 witness: with an empty draft the save behaves as cancel and issues
no request even though a successful outcome was available; and with the
padded draft "  B  " over title "A" the issued request carries the
trimmed draft "B", not the raw buffer. -/
theorem saveEdit_spec_witness :
    saveEdit uniqState demoTask (Except.ok demoTask)
      = (cancelEdit uniqState, none) ∧
    (saveEdit padState demoTask (Except.error "boom")).2 = some (1, "B") :=
  ⟨(saveEdit_spec uniqState demoTask demoTask "m").1 (Or.inl (by decide))
     (Except.ok demoTask),
   ((saveEdit_spec padState demoTask demoTask "boom").2
      (by decide) (by decide)).2.1⟩

/-- C9: `busyId` is a single scalar slot — it can name at most one task id
at a time — and after a toggle, a delete, or a save-edit completes, whether
it succeeded, failed, or (for save-edit) degenerated to a cancel, `busyId`
is `none` again, provided the operation started from a non-busy state as
the UI guarantees (mutating controls are disabled while a row is busy). -/
theorem busyId_single_and_cleared (s : AppState) (task : Task)
    (rT rE : Except String Task) (rD : Except String Bool)
    (h : s.busyId = none) :
    (∀ s' : AppState, ∀ i j : Nat, s'.busyId = some i → s'.busyId = some j → i = j) ∧
    (handleToggle s task rT).busyId = none ∧
    (handleDelete s task rD).busyId = none ∧
    (saveEdit s task rE).1.busyId = none := by
  refine ⟨?_, ?_, ?_, ?_⟩
  · intro s' i j hi hj
    rw [hi] at hj
    exact Option.some_inj.mp hj
  · cases rT <;> rfl
  · cases rD <;> rfl
  · by_cases hc : jsTrim s.editingTitle = "" ∨ jsTrim s.editingTitle = task.title
    · unfold saveEdit
      rw [if_pos hc]
      exact h
    · unfold saveEdit
      rw [if_neg hc]
      cases rE <;> rfl

/-- C9 witness: all three operations at a concrete non-busy state end with
`busyId = none`; shown here for the save-edit cancel path. -/
theorem busyId_single_and_cleared_witness :
    uniqState.busyId = none ∧
    (saveEdit uniqState demoTask (Except.ok demoTask)).1.busyId = none :=
  ⟨by decide,
   (busyId_single_and_cleared uniqState demoTask (Except.ok demoTask)
      (Except.ok demoTask) (Except.ok true) (by decide)).2.2.2⟩

end TodoApp
